import Mathlib

/-!
Shallow embedding of the async file/HTTP pipeline in src/index.js.

The active code path of the script is

  readFilePro(dog.txt) -> superagent.get(dog.ceo url) -> writeFilePro(dog-image.txt)

wrapped in an async function getDogPic whose catch block rethrows
new Error(err.message), and a top-level async IIFE that awaits getDogPic,
logging progress on success and console.error with an asyncError key on
failure.

The embedding threads an explicit world (file system contents, forced
read/write errors, an HTTP oracle) through the pipeline and records an
event trace (file reads, HTTP GETs, file writes) plus the console log
lines, so that invocation counts, ordering and final file contents are
all plain list facts.
-/

set_option autoImplicit false

namespace DogPipeline

/-- A JavaScript error value; only the constructor name (Error, TypeError, ...)
and the message string are modelled. -/
structure JsError where
  name : String
  message : String
deriving DecidableEq

/-- A JavaScript value as far as this program inspects one: the body field
response.body.message is either a string or undefined. -/
inductive JsValue where
  | undefined
  | str (s : String)
deriving DecidableEq

/-- An HTTP response as seen by superagent: a status code, the status text of
the wire response, and the message field of the parsed JSON body
(none models a body in which the field is missing, i.e. undefined). -/
structure HttpResponse where
  status : Nat
  statusText : String
  message : Option String
deriving DecidableEq

/-- Outcome of issuing one HTTP GET on the wire: either a transport failure
(connection error, timeout) carrying the error superagent rejects with,
or a received response of any status. -/
inductive HttpOutcome where
  | transportFailure (e : JsError)
  | gotResponse (r : HttpResponse)
deriving DecidableEq

/-- The ambient world of one run: current file contents as an association
list from path to content, the error fs.readFile yields for an absent or
unreadable path, the HTTP oracle giving the wire outcome per URL, and an
optional forced fs.writeFile error per path. -/
structure World where
  fs : List (String × String)
  readErr : String → JsError
  http : String → HttpOutcome
  writeErr : String → Option JsError

/-- Observable side effects of the run, in order of occurrence. -/
inductive Event where
  | readFile (path : String)
  | httpGet (url : String)
  | writeFile (path : String) (data : JsValue)
deriving DecidableEq

/-- Console output: console.log lines, and the console.error record with the
asyncError key emitted by the top-level catch. -/
inductive LogEntry where
  | log (line : String)
  | errLog (asyncError : String)
deriving DecidableEq

/-- Lookup of a file content by path in the modelled file system. -/
def fsLookup : List (String × String) → String → Option String
  | [], _ => none
  | (p, c) :: rest, path => if p = path then some c else fsLookup rest path

/-- fs.writeFile semantics on the stored contents: replace the content of the
path if present, append a new entry otherwise (overwrite, never append to the
old content). -/
def fsWrite : List (String × String) → String → String → List (String × String)
  | [], path, data => [(path, data)]
  | (p, c) :: rest, path, data =>
    if p = path then (p, data) :: rest else (p, c) :: fsWrite rest path data

/-- How a JsValue renders in a template string or console.log. -/
def jsShow : JsValue → String
  | .undefined => "undefined"
  | .str s => s

/-- Path dirname/dog.txt read by the pipeline. -/
def dogTxt (dirname : String) : String := dirname ++ "/dog.txt"

/-- Path dirname/dog-image.txt written by the pipeline. -/
def dogImageTxt (dirname : String) : String := dirname ++ "/dog-image.txt"

/-- The request URL template of src/index.js with the breed substituted. -/
def dogApiUrl (breed : String) : String :=
  "https://dog.ceo/api/breed/" ++ breed ++ "/images/random"

/-- readFilePro of src/index.js: promise wrapper around fs.readFile that
rejects with the error or resolves with the data. A read succeeds exactly
when the path is present in the modelled file system. -/
def readFilePro (w : World) (file : String) : Except JsError String :=
  match fsLookup w.fs file with
  | some data => .ok data
  | none => .error (w.readErr file)

/-- The TypeError Node throws when fs.writeFile receives non-string data
such as undefined; thrown synchronously inside the promise executor of
writeFilePro, it rejects the returned promise. -/
def invalidDataTypeError : JsError :=
  { name := "TypeError"
    message := "The \"data\" argument must be of type string or an instance of Buffer, TypedArray, or DataView. Received undefined" }

/-- writeFilePro of src/index.js: promise wrapper around fs.writeFile that
rejects with the error or resolves with the string success. Returns the
promise outcome together with the updated world. -/
def writeFilePro (w : World) (file : String) (data : JsValue) :
    Except JsError String × World :=
  match data with
  | .undefined => (.error invalidDataTypeError, w)
  | .str s =>
    match w.writeErr file with
    | some e => (.error e, w)
    | none => (.ok "success", { w with fs := fsWrite w.fs file s })

/-- Is a status code in the 2xx range treated as success by superagent. -/
def is2xx (status : Nat) : Bool :=
  decide (200 ≤ status) && decide (status < 300)

/-- The promise of superagent.get(url): resolves with the response on a 2xx
status, rejects on a transport failure or (with an Error built from the
status text) on a non-2xx response. -/
def superagentGet (http : String → HttpOutcome) (url : String) :
    Except JsError HttpResponse :=
  match http url with
  | .transportFailure e => .error e
  | .gotResponse r =>
    if is2xx r.status then .ok r
    else .error { name := "Error", message := r.statusText }

/-- Everything observable about one run: the settled promise of the pipeline
function, the final world, the side-effect trace and the console output. -/
structure RunResult where
  result : Except JsError String
  world : World
  trace : List Event
  logs : List LogEntry

/-- getDogPic of src/index.js: awaits readFilePro on dog.txt, awaits
superagent.get on the templated URL built from the breed, awaits
writeFilePro of response.body.message to dog-image.txt, resolves with the
string Step: 2: ready!; the catch block rethrows new Error(err.message). -/
def getDogPic (dirname : String) (w : World) : RunResult :=
  match readFilePro w (dogTxt dirname) with
  | .error e =>
    { result := .error { name := "Error", message := e.message }
      world := w
      trace := [.readFile (dogTxt dirname)]
      logs := [] }
  | .ok breed =>
    match superagentGet w.http (dogApiUrl breed) with
    | .error e =>
      { result := .error { name := "Error", message := e.message }
        world := w
        trace := [.readFile (dogTxt dirname), .httpGet (dogApiUrl breed)]
        logs := [.log ("Dog breed: " ++ breed)] }
    | .ok response =>
      let msg : JsValue :=
        match response.message with
        | some s => .str s
        | none => .undefined
      match writeFilePro w (dogImageTxt dirname) msg with
      | (.error e, w2) =>
        { result := .error { name := "Error", message := e.message }
          world := w2
          trace := [.readFile (dogTxt dirname), .httpGet (dogApiUrl breed),
                    .writeFile (dogImageTxt dirname) msg]
          logs := [.log ("Dog breed: " ++ breed),
                   .log ("Dog image URL: " ++ jsShow msg)] }
      | (.ok _, w2) =>
        { result := .ok "Step: 2: ready!"
          world := w2
          trace := [.readFile (dogTxt dirname), .httpGet (dogApiUrl breed),
                    .writeFile (dogImageTxt dirname) msg]
          logs := [.log ("Dog breed: " ++ breed),
                   .log ("Dog image URL: " ++ jsShow msg),
                   .log ("Dog image URL saved to dog-image.txt")] }

/-- The top-level async IIFE of src/index.js: logs Step 1, awaits getDogPic,
logs its resolution value and Step 3 on success; on failure its catch logs
the record with key asyncError and the message of the error. -/
def mainIIFE (dirname : String) (w : World) : RunResult :=
  let r := getDogPic dirname w
  match r.result with
  | .ok msg =>
    { r with logs := .log "Step 1: will get dog pics!" :: r.logs
                       ++ [.log msg, .log "Step 3: done getting dog pics!"] }
  | .error e =>
    { r with logs := .log "Step 1: will get dog pics!" :: r.logs
                       ++ [.errLog e.message] }

/-- Does an event record an HTTP GET. -/
def isGetEvent : Event → Bool
  | .httpGet _ => true
  | _ => false

/-- Does an event record a file write. -/
def isWriteEvent : Event → Bool
  | .writeFile _ _ => true
  | _ => false

/-- Is a console entry the error record of the outer catch. -/
def isErrLog : LogEntry → Bool
  | .errLog _ => true
  | _ => false

/-- Did the promise reject. -/
def isRejected : Except JsError String → Bool
  | .error _ => true
  | .ok _ => false

/-- A write stores the new content at the written path. -/
theorem fsLookup_fsWrite_self (fs : List (String × String)) (p d : String) :
    fsLookup (fsWrite fs p d) p = some d := by
  induction fs with
  | nil => simp [fsWrite, fsLookup]
  | cons hd tl ih =>
    obtain ⟨q, c⟩ := hd
    by_cases h : q = p
    · simp [fsWrite, h, fsLookup]
    · simp [fsWrite, h, fsLookup, ih]

/-- A write leaves every other path untouched. -/
theorem fsLookup_fsWrite_ne (fs : List (String × String)) (p q d : String)
    (h : p ≠ q) : fsLookup (fsWrite fs p d) q = fsLookup fs q := by
  induction fs with
  | nil => simp [fsWrite, fsLookup, h]
  | cons hd tl ih =>
    obtain ⟨a, c⟩ := hd
    by_cases ha : a = p
    · subst ha
      simp [fsWrite, fsLookup, h]
    · simp [fsWrite, ha, fsLookup, ih]

/-- Writing the same content twice is the same as writing it once:
the write overwrites, it does not accumulate. -/
theorem fsWrite_fsWrite_same (fs : List (String × String)) (p d : String) :
    fsWrite (fsWrite fs p d) p d = fsWrite fs p d := by
  induction fs with
  | nil => simp [fsWrite]
  | cons hd tl ih =>
    obtain ⟨q, c⟩ := hd
    by_cases h : q = p
    · simp [fsWrite, h]
    · simp [fsWrite, h, ih]

/-- The input path and the output path of the pipeline are distinct. -/
theorem dogImageTxt_ne_dogTxt (dirname : String) :
    dogImageTxt dirname ≠ dogTxt dirname := by
  intro h
  have h2 := congrArg String.length h
  simp only [dogImageTxt, dogTxt, String.length_append] at h2
  have h3 : ("/dog-image.txt" : String).length = ("/dog.txt" : String).length := by
    omega
  exact absurd h3 (by decide)

/-- Branch lemma: the read fails, the run stops at once. -/
theorem getDogPic_read_fail (dirname : String) (w : World)
    (hread : fsLookup w.fs (dogTxt dirname) = none) :
    getDogPic dirname w =
      { result := .error { name := "Error"
                           message := (w.readErr (dogTxt dirname)).message }
        world := w
        trace := [.readFile (dogTxt dirname)]
        logs := [] } := by
  simp [getDogPic, readFilePro, hread]

/-- Branch lemma: the read succeeds and the superagent promise rejects. -/
theorem getDogPic_fetch_fail (dirname : String) (w : World)
    (breed : String) (e : JsError)
    (hread : fsLookup w.fs (dogTxt dirname) = some breed)
    (hget : superagentGet w.http (dogApiUrl breed) = .error e) :
    getDogPic dirname w =
      { result := .error { name := "Error", message := e.message }
        world := w
        trace := [.readFile (dogTxt dirname), .httpGet (dogApiUrl breed)]
        logs := [.log ("Dog breed: " ++ breed)] } := by
  simp [getDogPic, readFilePro, hread, hget]

/-- Branch lemma: read and fetch succeed, the body has a message field and
the write succeeds. -/
theorem getDogPic_success (dirname : String) (w : World)
    (breed m : String) (r : HttpResponse)
    (hread : fsLookup w.fs (dogTxt dirname) = some breed)
    (hget : superagentGet w.http (dogApiUrl breed) = .ok r)
    (hmsg : r.message = some m)
    (hwerr : w.writeErr (dogImageTxt dirname) = none) :
    getDogPic dirname w =
      { result := .ok "Step: 2: ready!"
        world := { w with fs := fsWrite w.fs (dogImageTxt dirname) m }
        trace := [.readFile (dogTxt dirname), .httpGet (dogApiUrl breed),
                  .writeFile (dogImageTxt dirname) (.str m)]
        logs := [.log ("Dog breed: " ++ breed),
                 .log ("Dog image URL: " ++ m),
                 .log ("Dog image URL saved to dog-image.txt")] } := by
  simp [getDogPic, readFilePro, hread, hget, hmsg, writeFilePro, hwerr, jsShow]

/-- Branch lemma: read and fetch succeed, the body has a message field but
the write fails. -/
theorem getDogPic_write_fail (dirname : String) (w : World)
    (breed m : String) (r : HttpResponse) (e : JsError)
    (hread : fsLookup w.fs (dogTxt dirname) = some breed)
    (hget : superagentGet w.http (dogApiUrl breed) = .ok r)
    (hmsg : r.message = some m)
    (hwerr : w.writeErr (dogImageTxt dirname) = some e) :
    getDogPic dirname w =
      { result := .error { name := "Error", message := e.message }
        world := w
        trace := [.readFile (dogTxt dirname), .httpGet (dogApiUrl breed),
                  .writeFile (dogImageTxt dirname) (.str m)]
        logs := [.log ("Dog breed: " ++ breed),
                 .log ("Dog image URL: " ++ m)] } := by
  simp [getDogPic, readFilePro, hread, hget, hmsg, writeFilePro, hwerr, jsShow]

/-- Branch lemma: read and fetch succeed but the body lacks the message
field, so writeFilePro is invoked with undefined and rejects with the Node
TypeError; the file system is not modified. -/
theorem getDogPic_undefined_write (dirname : String) (w : World)
    (breed : String) (r : HttpResponse)
    (hread : fsLookup w.fs (dogTxt dirname) = some breed)
    (hget : superagentGet w.http (dogApiUrl breed) = .ok r)
    (hmsg : r.message = none) :
    getDogPic dirname w =
      { result := .error { name := "Error"
                           message := invalidDataTypeError.message }
        world := w
        trace := [.readFile (dogTxt dirname), .httpGet (dogApiUrl breed),
                  .writeFile (dogImageTxt dirname) .undefined]
        logs := [.log ("Dog breed: " ++ breed),
                 .log ("Dog image URL: undefined")] } := by
  simp [getDogPic, readFilePro, hread, hget, hmsg, writeFilePro, jsShow]

/-- Every run of getDogPic falls into exactly one of five branches: read
failure; fetch rejection; missing message field; write failure; success. -/
theorem getDogPic_shape (dirname : String) (w : World) :
    (fsLookup w.fs (dogTxt dirname) = none ∧
      getDogPic dirname w =
        { result := .error { name := "Error"
                             message := (w.readErr (dogTxt dirname)).message }
          world := w
          trace := [.readFile (dogTxt dirname)]
          logs := [] }) ∨
    (∃ breed e, fsLookup w.fs (dogTxt dirname) = some breed ∧
      superagentGet w.http (dogApiUrl breed) = .error e ∧
      getDogPic dirname w =
        { result := .error { name := "Error", message := e.message }
          world := w
          trace := [.readFile (dogTxt dirname), .httpGet (dogApiUrl breed)]
          logs := [.log ("Dog breed: " ++ breed)] }) ∨
    (∃ breed r, fsLookup w.fs (dogTxt dirname) = some breed ∧
      superagentGet w.http (dogApiUrl breed) = .ok r ∧ r.message = none ∧
      getDogPic dirname w =
        { result := .error { name := "Error"
                             message := invalidDataTypeError.message }
          world := w
          trace := [.readFile (dogTxt dirname), .httpGet (dogApiUrl breed),
                    .writeFile (dogImageTxt dirname) .undefined]
          logs := [.log ("Dog breed: " ++ breed),
                   .log ("Dog image URL: undefined")] }) ∨
    (∃ breed r m e, fsLookup w.fs (dogTxt dirname) = some breed ∧
      superagentGet w.http (dogApiUrl breed) = .ok r ∧ r.message = some m ∧
      w.writeErr (dogImageTxt dirname) = some e ∧
      getDogPic dirname w =
        { result := .error { name := "Error", message := e.message }
          world := w
          trace := [.readFile (dogTxt dirname), .httpGet (dogApiUrl breed),
                    .writeFile (dogImageTxt dirname) (.str m)]
          logs := [.log ("Dog breed: " ++ breed),
                   .log ("Dog image URL: " ++ m)] }) ∨
    (∃ breed r m, fsLookup w.fs (dogTxt dirname) = some breed ∧
      superagentGet w.http (dogApiUrl breed) = .ok r ∧ r.message = some m ∧
      w.writeErr (dogImageTxt dirname) = none ∧
      getDogPic dirname w =
        { result := .ok "Step: 2: ready!"
          world := { w with fs := fsWrite w.fs (dogImageTxt dirname) m }
          trace := [.readFile (dogTxt dirname), .httpGet (dogApiUrl breed),
                    .writeFile (dogImageTxt dirname) (.str m)]
          logs := [.log ("Dog breed: " ++ breed),
                   .log ("Dog image URL: " ++ m),
                   .log ("Dog image URL saved to dog-image.txt")] }) := by
  rcases hr : fsLookup w.fs (dogTxt dirname) with _ | breed
  · exact Or.inl ⟨rfl, getDogPic_read_fail dirname w hr⟩
  · rcases hg : superagentGet w.http (dogApiUrl breed) with e | r
    · exact Or.inr (Or.inl
        ⟨breed, e, rfl, hg, getDogPic_fetch_fail dirname w breed e hr hg⟩)
    · rcases hm : r.message with _ | m
      · exact Or.inr (Or.inr (Or.inl
          ⟨breed, r, rfl, hg, hm,
           getDogPic_undefined_write dirname w breed r hr hg hm⟩))
      · rcases hw : w.writeErr (dogImageTxt dirname) with _ | e
        · exact Or.inr (Or.inr (Or.inr (Or.inr
            ⟨breed, r, m, rfl, hg, hm, rfl,
             getDogPic_success dirname w breed m r hr hg hm hw⟩)))
        · exact Or.inr (Or.inr (Or.inr (Or.inl
            ⟨breed, r, m, e, rfl, hg, hm, rfl,
             getDogPic_write_fail dirname w breed m r e hr hg hm hw⟩)))

/-- Concrete world: breed hound on file, stable 200 response whose body
carries a message field, writable disk. -/
def happyWorld : World :=
  { fs := [("/app/dog.txt", "hound")]
    readErr := fun _ => { name := "Error", message := "ENOENT: no such file or directory" }
    http := fun _ => .gotResponse
      { status := 200, statusText := "OK"
        message := some "https://images.dog.ceo/x.jpg" }
    writeErr := fun _ => none }

/-- C1: on a successful end-to-end run (read succeeds, the GET resolves with
a body containing the message field, the write succeeds), the Writer is
invoked exactly once, with exactly the message string, and the final content
of the output resource equals that string exactly. -/
theorem c1_success_end_to_end (dirname : String) (w : World)
    (breed m : String) (r : HttpResponse)
    (hread : fsLookup w.fs (dogTxt dirname) = some breed)
    (hhttp : w.http (dogApiUrl breed) = .gotResponse r)
    (h2xx : is2xx r.status = true)
    (hmsg : r.message = some m)
    (hwerr : w.writeErr (dogImageTxt dirname) = none) :
    (getDogPic dirname w).trace.filter isWriteEvent
      = [.writeFile (dogImageTxt dirname) (.str m)] ∧
    fsLookup (getDogPic dirname w).world.fs (dogImageTxt dirname) = some m := by
  have hget : superagentGet w.http (dogApiUrl breed) = .ok r := by
    simp [superagentGet, hhttp, h2xx]
  rw [getDogPic_success dirname w breed m r hread hget hmsg hwerr]
  exact ⟨by simp [isWriteEvent, List.filter],
    fsLookup_fsWrite_self w.fs (dogImageTxt dirname) m⟩

/-- C1 witness: the end-to-end theorem at a concrete world. -/
theorem c1_witness :
    (getDogPic "/app" happyWorld).trace.filter isWriteEvent
      = [.writeFile (dogImageTxt "/app") (.str "https://images.dog.ceo/x.jpg")] ∧
    fsLookup (getDogPic "/app" happyWorld).world.fs (dogImageTxt "/app")
      = some "https://images.dog.ceo/x.jpg" :=
  c1_success_end_to_end "/app" happyWorld "hound" "https://images.dog.ceo/x.jpg"
    { status := 200, statusText := "OK", message := some "https://images.dog.ceo/x.jpg" }
    (by decide) rfl (by decide) rfl rfl

/-- Concrete world with nothing on disk at all, so the read fails. -/
def emptyWorld : World :=
  { fs := []
    readErr := fun _ => { name := "Error", message := "ENOENT: no such file or directory" }
    http := fun _ => .transportFailure { name := "Error", message := "network unreachable" }
    writeErr := fun _ => none }

/-- C3: when the Reader fails (input resource absent) the trace is the lone
read event — no HTTP request is issued, no write happens — and the file
system is untouched. -/
theorem c3_reader_failure_short_circuits (dirname : String) (w : World)
    (hread : fsLookup w.fs (dogTxt dirname) = none) :
    (getDogPic dirname w).trace = [.readFile (dogTxt dirname)] ∧
    (∀ u, Event.httpGet u ∉ (getDogPic dirname w).trace) ∧
    (∀ p d, Event.writeFile p d ∉ (getDogPic dirname w).trace) ∧
    (getDogPic dirname w).world.fs = w.fs := by
  rw [getDogPic_read_fail dirname w hread]
  simp

/-- C3 witness: the reader-failure theorem at the empty world. -/
theorem c3_witness :
    (getDogPic "/app" emptyWorld).trace = [.readFile (dogTxt "/app")] ∧
    (getDogPic "/app" emptyWorld).world.fs = emptyWorld.fs :=
  ⟨(c3_reader_failure_short_circuits "/app" emptyWorld rfl).1,
   (c3_reader_failure_short_circuits "/app" emptyWorld rfl).2.2.2⟩

/-- C4: whenever the read yields a breed, the run issues exactly one HTTP
GET, and its URL is the fixed template with the breed substituted. -/
theorem c4_single_get_templated_url (dirname : String) (w : World)
    (breed : String)
    (hread : fsLookup w.fs (dogTxt dirname) = some breed) :
    List.countP isGetEvent (getDogPic dirname w).trace = 1 ∧
    Event.httpGet (dogApiUrl breed) ∈ (getDogPic dirname w).trace := by
  rcases hg : superagentGet w.http (dogApiUrl breed) with e | r
  · rw [getDogPic_fetch_fail dirname w breed e hread hg]
    simp [isGetEvent, List.countP_cons]
  · rcases hm : r.message with _ | m
    · rw [getDogPic_undefined_write dirname w breed r hread hg hm]
      simp [isGetEvent, List.countP_cons]
    · rcases hw : w.writeErr (dogImageTxt dirname) with _ | e
      · rw [getDogPic_success dirname w breed m r hread hg hm hw]
        simp [isGetEvent, List.countP_cons]
      · rw [getDogPic_write_fail dirname w breed m r e hread hg hm hw]
        simp [isGetEvent, List.countP_cons]

/-- Concrete world whose 200 response body lacks the message field. -/
def noMessageWorld : World :=
  { fs := [("/app/dog.txt", "hound")]
    readErr := fun _ => { name := "Error", message := "ENOENT: no such file or directory" }
    http := fun _ => .gotResponse { status := 200, statusText := "OK", message := none }
    writeErr := fun _ => none }

/-- Concrete world whose response is a 404 with no transport failure. -/
def notFoundWorld : World :=
  { fs := [("/app/dog.txt", "hound")]
    readErr := fun _ => { name := "Error", message := "ENOENT: no such file or directory" }
    http := fun _ => .gotResponse { status := 404, statusText := "Not Found", message := none }
    writeErr := fun _ => none }

/-- C2 counterexample: on a 2xx response whose body lacks the message field,
the Writer IS invoked — writeFilePro is called with the undefined value
response.body.message — so the claim that the Writer is never invoked in
that case is false; the run still rejects and nothing is persisted. -/
theorem c2_counterexample :
    noMessageWorld.http (dogApiUrl "hound")
      = .gotResponse { status := 200, statusText := "OK", message := none } ∧
    Event.writeFile (dogImageTxt "/app") JsValue.undefined
      ∈ (getDogPic "/app" noMessageWorld).trace ∧
    isRejected (getDogPic "/app" noMessageWorld).result = true := by
  refine ⟨rfl, ?_, ?_⟩ <;> decide

/-- C2 amended: when the read succeeds and the response is non-2xx, the
Writer is never invoked and the file system is untouched; when the response
is 2xx but its body lacks the message field, the Writer is invoked once with
the undefined value, the write rejects, and the file system is untouched;
in every such run the promise returned by the pipeline rejects. -/
theorem c2_amended_fetch_failures (dirname : String) (w : World)
    (breed : String) (r : HttpResponse)
    (hread : fsLookup w.fs (dogTxt dirname) = some breed)
    (hhttp : w.http (dogApiUrl breed) = .gotResponse r)
    (hbad : is2xx r.status = false ∨ r.message = none) :
    isRejected (getDogPic dirname w).result = true ∧
    (is2xx r.status = false →
      (getDogPic dirname w).trace.filter isWriteEvent = []) ∧
    (is2xx r.status = true → r.message = none →
      (getDogPic dirname w).trace.filter isWriteEvent
        = [.writeFile (dogImageTxt dirname) .undefined]) ∧
    (getDogPic dirname w).world.fs = w.fs := by
  by_cases h2 : is2xx r.status
  · have hget : superagentGet w.http (dogApiUrl breed) = .ok r := by
      simp [superagentGet, hhttp, h2]
    have hmsg : r.message = none := by
      rcases hbad with hb | hb
      · rw [h2] at hb
        exact absurd hb (by simp)
      · exact hb
    rw [getDogPic_undefined_write dirname w breed r hread hget hmsg]
    simp [isRejected, isWriteEvent, List.filter, h2]
  · have hget : superagentGet w.http (dogApiUrl breed)
        = .error { name := "Error", message := r.statusText } := by
      simp [superagentGet, hhttp, h2]
    rw [getDogPic_fetch_fail dirname w breed _ hread hget]
    simp only [Bool.not_eq_true] at h2
    simp [isRejected, isWriteEvent, List.filter, h2]

/-- C2 witness: the amended theorem at the missing-message world. -/
theorem c2_witness :
    isRejected (getDogPic "/app" noMessageWorld).result = true ∧
    (getDogPic "/app" noMessageWorld).trace.filter isWriteEvent
      = [.writeFile (dogImageTxt "/app") .undefined] ∧
    (getDogPic "/app" noMessageWorld).world.fs = noMessageWorld.fs := by
  have h := c2_amended_fetch_failures "/app" noMessageWorld "hound"
    { status := 200, statusText := "OK", message := none }
    (by decide) rfl (Or.inr rfl)
  exact ⟨h.1, h.2.2.1 (by decide) rfl, h.2.2.2⟩

/-- C4 witness: exactly one GET to the hound URL at the concrete world. -/
theorem c4_witness :
    List.countP isGetEvent (getDogPic "/app" happyWorld).trace = 1 ∧
    Event.httpGet (dogApiUrl "hound") ∈ (getDogPic "/app" happyWorld).trace :=
  c4_single_get_templated_url "/app" happyWorld "hound" (by decide)

/-- C5: in every run no event is ever repeated (no retry of any stage), the
stages themselves never log an error, a failing run produces exactly one
error log entry — the outer catch of the IIFE, carrying the message of the
failure — a successful run produces none, and a failure of the Reader or of
the Fetcher short-circuits the remaining stages. -/
theorem c5_fail_fast_single_handler (dirname : String) (w : World) :
    (mainIIFE dirname w).trace.Nodup ∧
    (∀ s, LogEntry.errLog s ∉ (getDogPic dirname w).logs) ∧
    (∀ e, (getDogPic dirname w).result = .error e →
      (mainIIFE dirname w).logs.filter isErrLog = [.errLog e.message]) ∧
    (∀ s, (getDogPic dirname w).result = .ok s →
      (mainIIFE dirname w).logs.filter isErrLog = []) ∧
    (fsLookup w.fs (dogTxt dirname) = none →
      (getDogPic dirname w).trace = [.readFile (dogTxt dirname)]) ∧
    (∀ breed e, fsLookup w.fs (dogTxt dirname) = some breed →
      superagentGet w.http (dogApiUrl breed) = .error e →
      (getDogPic dirname w).trace.filter isWriteEvent = []) := by
  rcases getDogPic_shape dirname w with
    ⟨hr, h⟩ | ⟨breed, e0, hr, hg, h⟩ | ⟨breed, r, hr, hg, hm, h⟩ |
    ⟨breed, r, m, e0, hr, hg, hm, hw, h⟩ | ⟨breed, r, m, hr, hg, hm, hw, h⟩ <;>
  refine ⟨?_, ?_, ?_, ?_, ?_, ?_⟩ <;>
  simp_all [mainIIFE, isErrLog, isWriteEvent, List.filter]
  all_goals
    intro b e hb
    subst hb
    simp [hg]

/-- C6: the three stages run strictly sequentially — the trace is always an
ordered prefix of read, then the GET on the templated URL of the breed that
was read, then the write to the output path; nothing else is ever in the
trace and nothing runs before its predecessor completed. -/
theorem c6_strict_sequential_order (dirname : String) (w : World) :
    (getDogPic dirname w).trace = [.readFile (dogTxt dirname)] ∨
    (∃ breed, fsLookup w.fs (dogTxt dirname) = some breed ∧
      ((getDogPic dirname w).trace
          = [.readFile (dogTxt dirname), .httpGet (dogApiUrl breed)] ∨
        ∃ d, (getDogPic dirname w).trace
          = [.readFile (dogTxt dirname), .httpGet (dogApiUrl breed),
             .writeFile (dogImageTxt dirname) d])) := by
  rcases getDogPic_shape dirname w with
    ⟨hr, h⟩ | ⟨breed, e0, hr, hg, h⟩ | ⟨breed, r, hr, hg, hm, h⟩ |
    ⟨breed, r, m, e0, hr, hg, hm, hw, h⟩ | ⟨breed, r, m, hr, hg, hm, hw, h⟩
  · exact Or.inl (by rw [h])
  · exact Or.inr ⟨breed, hr, Or.inl (by rw [h])⟩
  · exact Or.inr ⟨breed, hr, Or.inr ⟨.undefined, by rw [h]⟩⟩
  · exact Or.inr ⟨breed, hr, Or.inr ⟨.str m, by rw [h]⟩⟩
  · exact Or.inr ⟨breed, hr, Or.inr ⟨.str m, by rw [h]⟩⟩

/-- C5 witness: at the 404 world the IIFE logs exactly one error record. -/
theorem c5_witness :
    (mainIIFE "/app" notFoundWorld).logs.filter isErrLog
      = [.errLog "Not Found"] :=
  (c5_fail_fast_single_handler "/app" notFoundWorld).2.2.1
    { name := "Error", message := "Not Found" } rfl

/-- C7: running the pipeline twice on the same input with a stable HTTP
oracle leaves the output resource with the same content after each run,
and the second run leaves the file system exactly as the first did —
the write overwrites, nothing accumulates. -/
theorem c7_idempotent_rerun (dirname : String) (w : World)
    (breed m : String) (r : HttpResponse)
    (hread : fsLookup w.fs (dogTxt dirname) = some breed)
    (hhttp : w.http (dogApiUrl breed) = .gotResponse r)
    (h2xx : is2xx r.status = true)
    (hmsg : r.message = some m)
    (hwerr : w.writeErr (dogImageTxt dirname) = none) :
    fsLookup (getDogPic dirname w).world.fs (dogImageTxt dirname) = some m ∧
    fsLookup (getDogPic dirname (getDogPic dirname w).world).world.fs
      (dogImageTxt dirname) = some m ∧
    (getDogPic dirname (getDogPic dirname w).world).world.fs
      = (getDogPic dirname w).world.fs := by
  have hget : superagentGet w.http (dogApiUrl breed) = .ok r := by
    simp [superagentGet, hhttp, h2xx]
  have h1 := getDogPic_success dirname w breed m r hread hget hmsg hwerr
  have hread1 : fsLookup (fsWrite w.fs (dogImageTxt dirname) m)
      (dogTxt dirname) = some breed := by
    rw [fsLookup_fsWrite_ne w.fs _ _ m (dogImageTxt_ne_dogTxt dirname)]
    exact hread
  have h2 := getDogPic_success dirname
    { w with fs := fsWrite w.fs (dogImageTxt dirname) m } breed m r
    hread1 hget hmsg hwerr
  rw [h1]
  rw [h2]
  refine ⟨fsLookup_fsWrite_self w.fs (dogImageTxt dirname) m, ?_, ?_⟩
  · exact fsLookup_fsWrite_self _ (dogImageTxt dirname) m
  · exact fsWrite_fsWrite_same w.fs (dogImageTxt dirname) m

/-- C7 witness: two runs at the concrete world agree on the output file. -/
theorem c7_witness :
    fsLookup (getDogPic "/app" happyWorld).world.fs (dogImageTxt "/app")
      = some "https://images.dog.ceo/x.jpg" ∧
    fsLookup (getDogPic "/app" (getDogPic "/app" happyWorld).world).world.fs
      (dogImageTxt "/app") = some "https://images.dog.ceo/x.jpg" ∧
    (getDogPic "/app" (getDogPic "/app" happyWorld).world).world.fs
      = (getDogPic "/app" happyWorld).world.fs :=
  c7_idempotent_rerun "/app" happyWorld "hound" "https://images.dog.ceo/x.jpg"
    { status := 200, statusText := "OK", message := some "https://images.dog.ceo/x.jpg" }
    (by decide) rfl (by decide) rfl rfl

/-- Concrete world whose stored breed value is untrimmed and full of
characters that are unsafe in a URL path segment. -/
def messyBreedWorld : World :=
  { fs := [("/app/dog.txt", " st. bernard/#?\n")]
    readErr := fun _ => { name := "Error", message := "ENOENT: no such file or directory" }
    http := fun _ => .transportFailure { name := "Error", message := "ECONNREFUSED" }
    writeErr := fun _ => none }

/-- C8: the value read from the input resource is substituted into the
request URL verbatim — no validation, no trimming, no percent-escaping —
so the single GET of the run targets the plain concatenation of the
template around the raw file content. -/
theorem c8_verbatim_url_segment (dirname : String) (w : World)
    (content : String)
    (hread : fsLookup w.fs (dogTxt dirname) = some content) :
    (getDogPic dirname w).trace.filter isGetEvent
      = [.httpGet ("https://dog.ceo/api/breed/" ++ content ++ "/images/random")] := by
  rcases hg : superagentGet w.http (dogApiUrl content) with e | r
  · rw [getDogPic_fetch_fail dirname w content e hread hg]
    simp [isGetEvent, List.filter, dogApiUrl]
  · rcases hm : r.message with _ | m
    · rw [getDogPic_undefined_write dirname w content r hread hg hm]
      simp [isGetEvent, List.filter, dogApiUrl]
    · rcases hw : w.writeErr (dogImageTxt dirname) with _ | e
      · rw [getDogPic_success dirname w content m r hread hg hm hw]
        simp [isGetEvent, List.filter, dogApiUrl]
      · rw [getDogPic_write_fail dirname w content m r e hread hg hm hw]
        simp [isGetEvent, List.filter, dogApiUrl]

/-- C8 witness: a breed full of spaces, dots, slashes, a hash, a question
mark and a trailing newline lands in the URL untouched. -/
theorem c8_witness :
    (getDogPic "/app" messyBreedWorld).trace.filter isGetEvent
      = [.httpGet ("https://dog.ceo/api/breed/" ++ " st. bernard/#?\n"
          ++ "/images/random")] :=
  c8_verbatim_url_segment "/app" messyBreedWorld " st. bernard/#?\n" (by decide)

/-- Concrete world whose read failure carries a non-Error constructor name,
to exhibit that the rethrow discards it. -/
def customErrorWorld : World :=
  { fs := []
    readErr := fun _ => { name := "SystemError", message := "boom" }
    http := fun _ => .transportFailure { name := "Error", message := "unused" }
    writeErr := fun _ => none }

/-- C9: every failure of the pipeline reaches the caller as a freshly
constructed Error — its name is always the plain Error regardless of the
kind of the original failure — carrying only the message string of the
original error, and the operator-facing log of the IIFE is exactly one
record under the asyncError key with that message text. -/
theorem c9_rewrapped_error_message_only (dirname : String) (w : World) :
    (∀ e, (getDogPic dirname w).result = .error e →
      e.name = "Error" ∧
      (mainIIFE dirname w).logs.filter isErrLog = [.errLog e.message]) ∧
    (fsLookup w.fs (dogTxt dirname) = none →
      (getDogPic dirname w).result
        = .error { name := "Error"
                   message := (w.readErr (dogTxt dirname)).message }) ∧
    (∀ breed e0, fsLookup w.fs (dogTxt dirname) = some breed →
      w.http (dogApiUrl breed) = .transportFailure e0 →
      (getDogPic dirname w).result
        = .error { name := "Error", message := e0.message }) ∧
    (∀ breed r m e0, fsLookup w.fs (dogTxt dirname) = some breed →
      superagentGet w.http (dogApiUrl breed) = .ok r → r.message = some m →
      w.writeErr (dogImageTxt dirname) = some e0 →
      (getDogPic dirname w).result
        = .error { name := "Error", message := e0.message }) := by
  refine ⟨?_, ?_, ?_, ?_⟩
  · intro e he
    rcases getDogPic_shape dirname w with
      ⟨hr, h⟩ | ⟨breed, e0, hr, hg, h⟩ | ⟨breed, r, hr, hg, hm, h⟩ |
      ⟨breed, r, m, e0, hr, hg, hm, hw, h⟩ | ⟨breed, r, m, hr, hg, hm, hw, h⟩ <;>
      rw [h] at he <;> simp only [Except.error.injEq, Except.ok.injEq] at he
    · subst he
      exact ⟨rfl, by simp [mainIIFE, h, isErrLog, List.filter]⟩
    · subst he
      exact ⟨rfl, by simp [mainIIFE, h, isErrLog, List.filter]⟩
    · subst he
      exact ⟨rfl, by simp [mainIIFE, h, isErrLog, List.filter]⟩
    · subst he
      exact ⟨rfl, by simp [mainIIFE, h, isErrLog, List.filter]⟩
    · exact absurd he (by simp)
  · intro hr
    rw [getDogPic_read_fail dirname w hr]
  · intro breed e0 hr hh
    have hget : superagentGet w.http (dogApiUrl breed) = .error e0 := by
      simp [superagentGet, hh]
    rw [getDogPic_fetch_fail dirname w breed e0 hr hget]
  · intro breed r m e0 hr hg hm hw
    rw [getDogPic_write_fail dirname w breed m r e0 hr hg hm hw]

/-- C9 witness: a SystemError named read failure reaches the caller renamed
to the plain Error, keeping only its message. -/
theorem c9_witness :
    (getDogPic "/app" customErrorWorld).result
      = .error { name := "Error", message := "boom" } :=
  (c9_rewrapped_error_message_only "/app" customErrorWorld).2.1 rfl

/-- C10: whenever fs.writeFile succeeds, the promise of writeFilePro
resolves with the literal string success, whatever the path and the data;
and every successful run of the pipeline resolves with the fixed
orchestration string, so the resolution value of the Writer is never
propagated by its caller. -/
theorem c10_writer_resolves_success (w : World) (file s : String)
    (hwerr : w.writeErr file = none) :
    (writeFilePro w file (.str s)).1 = .ok "success" ∧
    (∀ dirname w2 s2, (getDogPic dirname w2).result = .ok s2 →
      s2 = "Step: 2: ready!") := by
  refine ⟨by simp [writeFilePro, hwerr], ?_⟩
  intro dirname w2 s2 hres
  rcases getDogPic_shape dirname w2 with
    ⟨hr, h⟩ | ⟨breed, e0, hr, hg, h⟩ | ⟨breed, r, hr, hg, hm, h⟩ |
    ⟨breed, r, m, e0, hr, hg, hm, hw, h⟩ | ⟨breed, r, m, hr, hg, hm, hw, h⟩ <;>
    rw [h] at hres <;> simp at hres
  exact hres.symm

/-- C10 witness: a concrete successful write resolves with success. -/
theorem c10_witness :
    (writeFilePro happyWorld "/app/dog-image.txt" (.str "x")).1
      = .ok "success" :=
  (c10_writer_resolves_success happyWorld "/app/dog-image.txt" "x" rfl).1

end DogPipeline
